import Mathlib

/-
Verification of the likec4-llm firewall-rule pipeline.

The development shallowly embeds the two pipeline scripts:
  - generate_table.py  (static path: exported model document -> filter ->
    inference -> markdown table), and
  - mcp_client.py      (live path: view query -> parse -> inference ->
    JSON document + markdown table).

Python dictionaries are modelled as association lists preserving insertion
order; a dictionary access d.get(k) is an Option (none models an absent
key); Python string truthiness (None and the empty string are falsy) is
modelled by pyTruthy.  Fallible stages are modelled with Except, and the
outcome of each external effect (environment loading, the export
subprocess, the inference service, file writes) is a parameter of the
pipeline driver, so that the driver control flow itself is the object of
proof.
-/

namespace LikeC4

/-- Python truthiness of an optional string: None and the empty string are
falsy, every other string is truthy. -/
def pyTruthy : Option String → Bool
  | none => false
  | some s => !(s == "")

/-- Element details as read from the model document and as kept by the filter:
the four fields accessed by generate_table.py (title, kind, description,
technology), each possibly absent. -/
structure ElemData where
  title : Option String
  kind : Option String
  description : Option String
  technology : Option String
deriving DecidableEq, Repr

/-- One entry of the relations mapping of the model document, already read
through the nested accessors of generate_table.py: source is
details.get("source").get("model"), target is
details.get("target").get("model"), title is details.get("title");
none models an absent key. -/
structure RelDetails where
  source : Option String
  target : Option String
  title : Option String
deriving DecidableEq, Repr

/-- The raw model document: an elements mapping and a relations mapping,
both in document order. -/
structure RawModel where
  elements : List (String × ElemData)
  relations : List (String × RelDetails)
deriving DecidableEq, Repr

/-- A normalized relationship with flattened endpoint ids, as built by
get_structured_model_data. -/
structure Relationship where
  source : String
  target : String
  description : String
deriving DecidableEq, Repr

/-- The filtered graph returned by get_structured_model_data: the filtered
elements mapping and the normalized relationship list. -/
structure FilteredGraph where
  elements : List (String × ElemData)
  relationships : List Relationship
deriving DecidableEq, Repr

/-- Normalization of one relation entry (the loop body of
get_structured_model_data): if both endpoint ids are truthy the entry is
kept, with description defaulting to "No description" when the title key is
absent; otherwise it is skipped. -/
def normalizeRel (d : RelDetails) : Option Relationship :=
  if pyTruthy d.source && pyTruthy d.target then
    some ⟨d.source.getD "", d.target.getD "", d.title.getD "No description"⟩
  else none

/-- The normalized relationships kept from the relations mapping, in order. -/
def keptRels (relations : List (String × RelDetails)) : List Relationship :=
  relations.filterMap (fun p => normalizeRel p.2)

/-- The set involved_element_ids built by the extraction loop: every source
and target id of a kept relationship (membership is what the code tests). -/
def involvedIds (relations : List (String × RelDetails)) : List String :=
  (keptRels relations).flatMap (fun r => [r.source, r.target])

/-- The element projection of the filtering comprehension: the four fields
read back from the element details. -/
def projectElem (d : ElemData) : ElemData :=
  { title := d.title, kind := d.kind, description := d.description,
    technology := d.technology }

/-- get_structured_model_data of generate_table.py (the pure filtering part,
after the document has been read): keeps the relation entries with both
endpoint ids, and restricts the elements mapping to ids involved in some
kept relationship. -/
def get_structured_model_data (m : RawModel) : FilteredGraph :=
  let involved := involvedIds m.relations
  { elements :=
      (m.elements.filter (fun p => involved.contains p.1)).map
        (fun p => (p.1, projectElem p.2)),
    relationships := keptRels m.relations }

/-- Re-encoding of a FilteredGraph in the raw document shape the filter
reads: each flat relationship is nested back under source.model /
target.model with its description as the title (the inverse of the
flattening the adapter performs); relation keys are irrelevant to the
filter and are left blank. -/
def encodeFiltered (g : FilteredGraph) : RawModel :=
  { elements := g.elements,
    relations := g.relationships.map
      (fun r => ("", RelDetails.mk (some r.source) (some r.target)
        (some r.description))) }

/-- One rule object of the static inference response; each of the four
fields the renderer reads may be absent. -/
structure StaticRule where
  source : Option String
  port : Option String
  destination : Option String
  description : Option String
deriving DecidableEq, Repr

/-- The JSON object returned by the inference service on the static path:
the top-level rules key may be absent (rules_json.get with a default). -/
structure RulesJson where
  rules : Option (List StaticRule)
deriving DecidableEq, Repr

def staticHeader : String := "| Source | Port | Destination | Description |\n"

def staticSeparator : String :=
  "|--------|------|-------------|-------------|\n"

/-- One data row of the static markdown table, with the literal N/A
placeholder for each absent field. -/
def staticRow (r : StaticRule) : String :=
  "| " ++ r.source.getD "N/A" ++ " | " ++ r.port.getD "N/A" ++ " | "
    ++ r.destination.getD "N/A" ++ " | " ++ r.description.getD "N/A" ++ " |"

/-- The list comprehension building the data rows. -/
def staticRows (rules : List StaticRule) : List String := rules.map staticRow

/-- format_json_to_markdown of generate_table.py. -/
def format_json_to_markdown (rulesJson : RulesJson) : String :=
  let rules := rulesJson.rules.getD []
  if rules.isEmpty then "No rules were generated by the LLM."
  else staticHeader ++ staticSeparator
    ++ String.intercalate "\n" (staticRows rules) ++ "\n"

/-- Python exceptions that the pipeline stages can raise (all subclasses of
Exception, hence all caught by the try block of main). -/
inductive PyErr where
  | valueErr (msg : String)
  | fileNotFound (msg : String)
  | calledProcessErr (returncode : Int)
  | jsonDecodeErr
  | ioErr (msg : String)
  | apiErr (msg : String)
deriving DecidableEq, Repr

def TABLE_OUTPUT_PATH : String := "./dist/FirewallRules.md"

/-- The fixed sentinel text written when the model has no relationships. -/
def noRelsSentinel : String :=
  "No rules could be generated because the C4 model does not contain any relationships."

/-- The outcome of each external effect performed by main of
generate_table.py, supplied as an environment: configure_llm (env and
client setup), export_model_to_json (the npm export subprocess), the read
and parse of model.json inside get_structured_model_data, the inference
call for a given payload, and the file write inside save_table. -/
structure StaticEnv where
  configureLlm : Except PyErr Unit
  exportModel : Except PyErr Unit
  modelDoc : Except PyErr RawModel
  llmResponse : FilteredGraph → Except PyErr RulesJson
  saveOutcome : Except PyErr Unit

/-- The try block of main in generate_table.py: stages run in order, each
raised exception propagates out of the block; the result is the list of
(path, content) writes performed, paired with whether the inference client
was invoked (the Bool is meaningful also when an exception is raised,
since the inference call happens before any later raise). -/
def mainTry (env : StaticEnv) :
    Except PyErr (List (String × String)) × Bool :=
  match env.configureLlm with
  | .error e => (.error e, false)
  | .ok _ =>
  match env.exportModel with
  | .error e => (.error e, false)
  | .ok _ =>
  match env.modelDoc with
  | .error e => (.error e, false)
  | .ok m =>
  let connections := get_structured_model_data m
  if connections.relationships.isEmpty then
    match env.saveOutcome with
    | .error e => (.error e, false)
    | .ok _ => (.ok [(TABLE_OUTPUT_PATH, noRelsSentinel)], false)
  else
    match env.llmResponse connections with
    | .error e => (.error e, true)
    | .ok rulesJson =>
      match env.saveOutcome with
      | .error e => (.error e, true)
      | .ok _ =>
        (.ok [(TABLE_OUTPUT_PATH, format_json_to_markdown rulesJson)], true)

/-- The observable outcome of one run of main. -/
structure RunResult where
  writes : List (String × String)
  llmInvoked : Bool
  raised : Option PyErr
  errorDiagnostic : Bool
deriving DecidableEq, Repr

/-- main of generate_table.py: the try block wrapped in the catch-all
except Exception handler, which prints a diagnostic and returns normally. -/
def mainRun (env : StaticEnv) : RunResult :=
  match mainTry env with
  | (.ok w, inv) =>
      { writes := w, llmInvoked := inv, raised := none,
        errorDiagnostic := false }
  | (.error _, inv) =>
      { writes := [], llmInvoked := inv, raised := none,
        errorDiagnostic := true }

/-- One node of the live view payload, read through the accessors of
parse_c4_view: id is node.get("id"), title is node.get("title"),
represents is node.get("represents").get("element"). -/
structure ViewNode where
  id : Option String
  title : Option String
  represents : Option String
deriving DecidableEq, Repr

/-- The parsed live view payload: its nodes list. -/
structure ViewJson where
  nodes : List ViewNode
deriving DecidableEq, Repr

/-- The element dictionary built by parse_c4_view for a qualifying node.
The source dictionary has exactly the keys id, title, kind and description;
it carries no technology key, modelled as technology = none. -/
structure LiveElement where
  id : String
  title : Option String
  kind : String
  description : String
  technology : Option String
deriving DecidableEq, Repr

/-- The graph returned by parse_c4_view. -/
structure LiveGraph where
  elements : List (String × LiveElement)
  relationships : List Relationship
deriving DecidableEq, Repr

/-- One logging call, with its level and message. -/
structure LogEntry where
  level : String
  message : String
deriving DecidableEq, Repr

/-- Assignment into a Python dictionary modelled as an association list:
an existing key keeps its position and gets the new value, a new key is
appended. -/
def dictInsert {α : Type} (m : List (String × α)) (k : String) (v : α) :
    List (String × α) :=
  if m.any (fun p => p.1 == k) then
    m.map (fun p => if p.1 == k then (k, v) else p)
  else m ++ [(k, v)]

/-- The element value parse_c4_view stores for a node. -/
def mkLiveElement (node : ViewNode) : LiveElement :=
  { id := node.id.getD "", title := node.title, kind := "unknown",
    description := "", technology := none }

/-- The node loop of parse_c4_view: a node with truthy id and truthy
represents reference contributes an element keyed by its id. -/
def parseNodes : List ViewNode → List (String × LiveElement) →
    List (String × LiveElement)
  | [], acc => acc
  | node :: rest, acc =>
      parseNodes rest
        (if pyTruthy node.id && pyTruthy node.represents then
          dictInsert acc (node.id.getD "") (mkLiveElement node)
        else acc)

/-- parse_c4_view of mcp_client.py.  The json.loads step is modelled by the
Option argument: none is a text that failed to parse (JSONDecodeError),
some v the parsed payload.  The function also returns the logging calls it
performs. -/
def parse_c4_view (parsed : Option ViewJson) : LiveGraph × List LogEntry :=
  match parsed with
  | none =>
      (⟨[], []⟩,
       [⟨"INFO", "Parsing view content..."⟩,
        ⟨"ERROR", "Failed to parse view content as JSON."⟩])
  | some v =>
      let elements := parseNodes v.nodes []
      (⟨elements, []⟩,
       [⟨"INFO", "Parsing view content..."⟩,
        ⟨"INFO", "Parsed " ++ toString elements.length ++ " elements."⟩])

/-- One rule object of the live inference response; each of the five
fields read by save_firewall_outputs may be absent. -/
structure LiveRule where
  source : Option String
  target : Option String
  port : Option String
  protocol : Option String
  purpose : Option String
deriving DecidableEq, Repr

/-- Python str.strip() on the character list: whitespace removed from both
ends. -/
def stripChars (cs : List Char) : List Char :=
  ((cs.dropWhile Char.isWhitespace).reverse.dropWhile
    Char.isWhitespace).reverse

/-- Python str.strip() on strings. -/
def pyStrip (s : String) : String := String.mk (stripChars s.data)

/-- One data row of the live markdown table: empty-string placeholders, and
the port cell is the stripped concatenation of protocol and port. -/
def liveRow (r : LiveRule) : String :=
  "| " ++ r.source.getD "" ++ " | "
    ++ pyStrip (r.protocol.getD "" ++ " " ++ r.port.getD "") ++ " | "
    ++ r.target.getD "" ++ " | " ++ r.purpose.getD "" ++ " |"

/-- The md_lines list built by save_firewall_outputs: two header lines then
one row per rule. -/
def liveMdLines (rules : List LiveRule) : List String :=
  "| Source | Port | Destination | Description |"
    :: "|--------|------|-------------|-------------|"
    :: rules.map liveRow

/-- The markdown document written by save_firewall_outputs. -/
def save_firewall_outputs_md (rules : List LiveRule) : String :=
  String.intercalate "\n" (liveMdLines rules)

/-- JSON values, for the serialized rule document. -/
inductive Json where
  | null : Json
  | str : String → Json
  | arr : List Json → Json
  | obj : List (String × Json) → Json

/-- A present optional field contributes one key, an absent one none. -/
def optField (k : String) (v : Option String) : List (String × Json) :=
  match v with
  | some s => [(k, Json.str s)]
  | none => []

/-- The JSON object for one rule: exactly its present fields, verbatim. -/
def ruleToJson (r : LiveRule) : Json :=
  Json.obj (optField "source" r.source ++ optField "target" r.target
    ++ optField "port" r.port ++ optField "protocol" r.protocol
    ++ optField "purpose" r.purpose)

/-- The serialized document written by save_firewall_outputs: the rule list
wrapped under the fixed top-level key firewall_rules.  The byte-level
json.dump / json.load pair of the standard library is modelled at the
value level. -/
def save_firewall_outputs_json (rules : List LiveRule) : Json :=
  Json.obj [("firewall_rules", Json.arr (rules.map ruleToJson))]

/-- Key lookup in a JSON object. -/
def jsonLookup (fields : List (String × Json)) (k : String) : Option Json :=
  (fields.find? (fun p => p.1 == k)).map Prod.snd

/-- Reading back an optional string field. -/
def asStr : Option Json → Option String
  | some (Json.str s) => some s
  | _ => none

/-- Re-reading one rule object from the serialized document. -/
def jsonToRule : Json → Option LiveRule
  | Json.obj fields =>
      some ⟨asStr (jsonLookup fields "source"),
            asStr (jsonLookup fields "target"),
            asStr (jsonLookup fields "port"),
            asStr (jsonLookup fields "protocol"),
            asStr (jsonLookup fields "purpose")⟩
  | _ => none

/-- Re-reading a rule list, failing on any non-object entry. -/
def decodeRules : List Json → Option (List LiveRule)
  | [] => some []
  | j :: rest =>
      match jsonToRule j, decodeRules rest with
      | some r, some rs => some (r :: rs)
      | _, _ => none

/-- Re-reading the serialized rule document. -/
def readFirewallDoc : Json → Option (List LiveRule)
  | Json.obj fields =>
      match jsonLookup fields "firewall_rules" with
      | some (Json.arr items) => decodeRules items
      | _ => none
  | _ => none

/-- Concrete inputs used by witnesses and counterexamples. -/
def elemDataA : ElemData :=
  ⟨some "Service A", some "system", some "Network ID: 10.0.0.1", none⟩

def mGood : RawModel :=
  ⟨[("A", elemDataA), ("B", elemDataA), ("C", elemDataA)],
   [("r1", ⟨some "A", some "B", some "calls (TCP 443)"⟩)]⟩

def mBad : RawModel :=
  ⟨[], [("r1", ⟨some "A", some "B", some "x"⟩)]⟩

def mNoRels : RawModel := ⟨[("A", elemDataA)], []⟩

def envNoRulesKey : StaticEnv :=
  { configureLlm := .ok (), exportModel := .ok (), modelDoc := .ok mGood,
    llmResponse := fun _ => .ok ⟨none⟩, saveOutcome := .ok () }

def envNoRels : StaticEnv :=
  { configureLlm := .ok (), exportModel := .ok (), modelDoc := .ok mNoRels,
    llmResponse := fun _ => .ok ⟨none⟩, saveOutcome := .ok () }

def envFailing : StaticEnv :=
  { configureLlm := .error (.valueErr "OPENAI_API_KEY not found"),
    exportModel := .ok (), modelDoc := .ok mGood,
    llmResponse := fun _ => .ok ⟨none⟩, saveOutcome := .ok () }

def node1 : ViewNode := ⟨some "n1", some "Service", some "likec4.model.svc"⟩

def view1 : ViewJson := ⟨[node1]⟩

example :
    get_structured_model_data
      ⟨[("A", ⟨some "a", none, none, none⟩), ("C", ⟨none, none, none, none⟩)],
       [("r1", ⟨some "A", some "B", none⟩)]⟩ =
    ⟨[("A", ⟨some "a", none, none, none⟩)],
     [⟨"A", "B", "No description"⟩]⟩ := by decide

example : pyStrip ("" ++ " " ++ "") = "" := by decide

example : pyStrip ("TCP" ++ " " ++ "443") = "TCP 443" := by decide

/-- Unfolding lemma for the filter. -/
lemma gsmd_eq (m : RawModel) :
    get_structured_model_data m =
      ⟨(m.elements.filter
          (fun p => (involvedIds m.relations).contains p.1)).map
         (fun p => (p.1, projectElem p.2)),
       keptRels m.relations⟩ := rfl

lemma pyTruthy_getD {o : Option String} (h : pyTruthy o = true) :
    o.getD "" ≠ "" := by
  cases o with
  | none => simp [pyTruthy] at h
  | some s => simpa [pyTruthy] using h

/-- Every kept relationship has nonempty endpoint ids. -/
lemma keptRels_sound {rels : List (String × RelDetails)} {r : Relationship}
    (h : r ∈ keptRels rels) : r.source ≠ "" ∧ r.target ≠ "" := by
  rcases List.mem_filterMap.mp h with ⟨p, _, hp⟩
  unfold normalizeRel at hp
  split_ifs at hp with hc
  simp only [Bool.and_eq_true] at hc
  obtain ⟨h1, h2⟩ := hc
  cases hp
  exact ⟨pyTruthy_getD h1, pyTruthy_getD h2⟩

/-- Normalizing a re-encoded relationship with nonempty endpoints gives it
back. -/
lemma normalizeRel_encode {r : Relationship} (hs : r.source ≠ "")
    (ht : r.target ≠ "") :
    normalizeRel (RelDetails.mk (some r.source) (some r.target)
      (some r.description)) = some r := by
  simp [normalizeRel, pyTruthy, hs, ht]

/-- Extraction over a list of re-encoded relationships with nonempty
endpoints is the identity. -/
lemma keptRels_encode (l : List Relationship)
    (h : ∀ r ∈ l, r.source ≠ "" ∧ r.target ≠ "") :
    keptRels (l.map (fun r => ("", RelDetails.mk (some r.source)
      (some r.target) (some r.description)))) = l := by
  induction l with
  | nil => rfl
  | cons a t ih =>
      have ha := h a (List.mem_cons_self a t)
      have hrest : ∀ r ∈ t, r.source ≠ "" ∧ r.target ≠ "" :=
        fun r hr => h r (List.mem_cons_of_mem a hr)
      have hhead := normalizeRel_encode ha.1 ha.2
      simpa [keptRels, List.filterMap_cons, hhead] using ih hrest

/-- The element projection is the identity, so mapping it over an
association list changes nothing. -/
lemma map_projPair_id (l : List (String × ElemData)) :
    l.map (fun p => (p.1, projectElem p.2)) = l := by
  have h : ∀ p : String × ElemData, (p.1, projectElem p.2) = p :=
    fun p => rfl
  simp only [h]
  simp

/-- C2, amended.  For every raw model, the filtered element-key list is the
raw key list restricted to ids involved in a kept relationship, and every
kept relationship has both endpoints in the involved-id set; the element-key
set equals the involved-id set only under the extra assumption that every
involved id actually exists in the raw element mapping.  Without that
assumption a kept relationship may reference an id outside the element-key
set: dangling references are propagated, not dropped. -/
theorem filter_keys_characterization (m : RawModel) :
    ((get_structured_model_data m).elements.map Prod.fst
      = (m.elements.map Prod.fst).filter
          (fun i => (involvedIds m.relations).contains i))
    ∧ (∀ r ∈ (get_structured_model_data m).relationships,
        r.source ∈ involvedIds m.relations
          ∧ r.target ∈ involvedIds m.relations)
    ∧ ((∀ i ∈ involvedIds m.relations, i ∈ m.elements.map Prod.fst) →
        ∀ i, i ∈ (get_structured_model_data m).elements.map Prod.fst
          ↔ i ∈ involvedIds m.relations) := by
  have ha : (get_structured_model_data m).elements.map Prod.fst
      = (m.elements.map Prod.fst).filter
          (fun i => (involvedIds m.relations).contains i) := by
    rw [gsmd_eq]
    simp only [List.map_map, List.filter_map, Function.comp]
    rfl
  refine ⟨ha, ?_, ?_⟩
  · intro r hr
    have hr' : r ∈ keptRels m.relations := hr
    constructor
    · exact List.mem_flatMap.mpr ⟨r, hr', by simp⟩
    · exact List.mem_flatMap.mpr ⟨r, hr', by simp⟩
  · intro hall i
    constructor
    · intro hi
      rw [ha] at hi
      have := List.mem_filter.mp hi
      exact List.elem_iff.mp this.2
    · intro hi
      rw [ha]
      exact List.mem_filter.mpr ⟨hall i hi, List.elem_iff.mpr hi⟩

theorem filter_keys_characterization_witness :
    ((Relationship.mk "A" "B" "calls (TCP 443)").source
        ∈ involvedIds mGood.relations
      ∧ (Relationship.mk "A" "B" "calls (TCP 443)").target
        ∈ involvedIds mGood.relations)
    ∧ ("A" ∈ (get_structured_model_data mGood).elements.map Prod.fst
        ↔ "A" ∈ involvedIds mGood.relations) :=
  ⟨(filter_keys_characterization mGood).2.1
      ⟨"A", "B", "calls (TCP 443)"⟩ (by decide),
   (filter_keys_characterization mGood).2.2 (by decide) "A"⟩

/-- C2 counterexample.  In a model whose relations mapping references the
elements A and B while the elements mapping is empty, the relationship is
kept with endpoints outside the element-key set (a dangling reference is
propagated) and the element-key set does not equal the endpoint union. -/
theorem dangling_reference_propagated_cex :
    (¬ ∀ r ∈ (get_structured_model_data mBad).relationships,
        r.source ∈ (get_structured_model_data mBad).elements.map Prod.fst)
    ∧ "A" ∈ involvedIds mBad.relations
    ∧ "A" ∉ (get_structured_model_data mBad).elements.map Prod.fst := by
  refine ⟨?_, by decide, by decide⟩
  intro h
  exact absurd (h ⟨"A", "B", "x"⟩ (by decide)) (by decide)

/-- C5.  The subgraph filter is idempotent: re-encoding the filtered graph
in the raw document shape and filtering again yields the same filtered
graph (same element mapping, same relationship list). -/
theorem filter_idempotent (m : RawModel) :
    get_structured_model_data (encodeFiltered (get_structured_model_data m))
      = get_structured_model_data m := by
  have hsound : ∀ r ∈ keptRels m.relations, r.source ≠ "" ∧ r.target ≠ "" :=
    fun _ hr => keptRels_sound hr
  have hk : keptRels ((encodeFiltered (get_structured_model_data m)).relations)
      = keptRels m.relations := keptRels_encode _ hsound
  have hinv : involvedIds
        ((encodeFiltered (get_structured_model_data m)).relations)
      = involvedIds m.relations := by
    unfold involvedIds
    rw [hk]
  have hmk : ∀ (a b : FilteredGraph), a.elements = b.elements →
      a.relationships = b.relationships → a = b := by
    intro a b h1 h2
    cases a
    cases b
    simp_all
  apply hmk
  · rw [gsmd_eq (encodeFiltered (get_structured_model_data m))]
    rw [hinv]
    show (((get_structured_model_data m).elements.filter
        (fun p => (involvedIds m.relations).contains p.1)).map
        (fun p => (p.1, projectElem p.2)))
      = (get_structured_model_data m).elements
    rw [gsmd_eq m]
    simp only [map_projPair_id]
    simp [List.filter_filter]
  · rw [gsmd_eq (encodeFiltered (get_structured_model_data m))]
    rw [gsmd_eq m]
    exact hk

/-- C10.  A relation entry with both endpoint ids present and truthy but no
title key normalizes to a Relationship whose description is the literal
string "No description", and that relationship is kept by extraction when
the entry occurs in the relations mapping. -/
theorem missing_title_defaults_description (d : RelDetails) (s t : String)
    (hs : d.source = some s) (hs2 : s ≠ "") (ht : d.target = some t)
    (ht2 : t ≠ "") (hti : d.title = none) :
    normalizeRel d = some ⟨s, t, "No description"⟩
    ∧ ∀ (rels : List (String × RelDetails)) (rid : String),
        (rid, d) ∈ rels →
          Relationship.mk s t "No description" ∈ keptRels rels := by
  have h1 : normalizeRel d = some ⟨s, t, "No description"⟩ := by
    simp [normalizeRel, pyTruthy, hs, ht, hti, hs2, ht2]
  exact ⟨h1, fun rels rid hmem =>
    List.mem_filterMap.mpr ⟨(rid, d), hmem, h1⟩⟩

theorem missing_title_defaults_description_witness :
    normalizeRel ⟨some "A", some "B", none⟩
      = some ⟨"A", "B", "No description"⟩
    ∧ Relationship.mk "A" "B" "No description"
      ∈ keptRels [("r1", ⟨some "A", some "B", none⟩)] :=
  ⟨(missing_title_defaults_description ⟨some "A", some "B", none⟩ "A" "B"
      rfl (by decide) rfl (by decide) rfl).1,
   (missing_title_defaults_description ⟨some "A", some "B", none⟩ "A" "B"
      rfl (by decide) rfl (by decide) rfl).2
      [("r1", ⟨some "A", some "B", none⟩)] "r1" (by decide)⟩

/-- C6.  Tabular rendering: on the static path the table is the fixed
header and separator followed by exactly one data row per rule, in order,
each row listing the source, port, destination and description cells with
the literal N/A placeholder for absent fields; on the live path the lines
are the same two header lines followed by exactly one row per rule with
empty-string placeholders and the stripped protocol-port cell. -/
theorem table_rendering_rows (rs : List StaticRule) (ls : List LiveRule)
    (h : rs ≠ []) :
    format_json_to_markdown ⟨some rs⟩
      = staticHeader ++ staticSeparator
        ++ String.intercalate "\n" (staticRows rs) ++ "\n"
    ∧ staticRows rs = rs.map (fun r =>
        "| " ++ r.source.getD "N/A" ++ " | " ++ r.port.getD "N/A" ++ " | "
          ++ r.destination.getD "N/A" ++ " | "
          ++ r.description.getD "N/A" ++ " |")
    ∧ (staticRows rs).length = rs.length
    ∧ liveMdLines ls
      = "| Source | Port | Destination | Description |"
        :: "|--------|------|-------------|-------------|"
        :: ls.map (fun r =>
          "| " ++ r.source.getD "" ++ " | "
            ++ pyStrip (r.protocol.getD "" ++ " " ++ r.port.getD "") ++ " | "
            ++ r.target.getD "" ++ " | " ++ r.purpose.getD "" ++ " |")
    ∧ (liveMdLines ls).length = ls.length + 2 := by
  have hne : rs.isEmpty = false := by
    simp [List.isEmpty_iff, h]
  refine ⟨?_, rfl, by simp [staticRows], rfl, by simp [liveMdLines]⟩
  simp [format_json_to_markdown, hne]

theorem table_rendering_rows_witness :
    format_json_to_markdown ⟨some [StaticRule.mk none none none none]⟩
      = staticHeader ++ staticSeparator
        ++ String.intercalate "\n"
            (staticRows [StaticRule.mk none none none none]) ++ "\n"
    ∧ (staticRows [StaticRule.mk none none none none]).length = 1 :=
  ⟨(table_rendering_rows [StaticRule.mk none none none none]
      [LiveRule.mk none none none none none] (by decide)).1,
   (table_rendering_rows [StaticRule.mk none none none none]
      [LiveRule.mk none none none none none] (by decide)).2.2.1⟩

/-- C9.  The static driver never propagates an exception: whatever the
outcome of every stage, main returns normally, and it prints the error
diagnostic exactly when the try block raised. -/
theorem main_catches_all_exceptions (env : StaticEnv) :
    (mainRun env).raised = none
    ∧ ((mainRun env).errorDiagnostic = true
        ↔ ∃ e, (mainTry env).1 = .error e) := by
  unfold mainRun
  cases h : mainTry env with
  | mk res inv =>
      cases res with
      | ok w => simp [h]
      | error e => simp [h]

theorem main_catches_all_exceptions_witness :
    (mainRun envFailing).raised = none
    ∧ (mainRun envFailing).errorDiagnostic = true :=
  ⟨(main_catches_all_exceptions envFailing).1,
   (main_catches_all_exceptions envFailing).2.mpr
     ⟨PyErr.valueErr "OPENAI_API_KEY not found", rfl⟩⟩

/-- C1, amended.  An inference response that is a JSON object without the
top-level rules key is accepted without any schema validation and without
raising: format_json_to_markdown substitutes the fixed fallback text, which
main writes to the table output location, and the run terminates normally.
No SchemaValidationError exists anywhere on this path. -/
theorem missing_rules_key_accepted (env : StaticEnv) (m : RawModel)
    (hc : env.configureLlm = .ok ()) (he : env.exportModel = .ok ())
    (hm : env.modelDoc = .ok m) (hrel : keptRels m.relations ≠ [])
    (hllm : env.llmResponse (get_structured_model_data m) = .ok ⟨none⟩)
    (hs : env.saveOutcome = .ok ()) :
    mainRun env
      = ⟨[(TABLE_OUTPUT_PATH, "No rules were generated by the LLM.")],
         true, none, false⟩ := by
  have hne : (get_structured_model_data m).relationships.isEmpty = false := by
    rw [gsmd_eq]
    simp [List.isEmpty_iff, hrel]
  unfold mainRun mainTry
  rw [hc, he, hm]
  simp only [hne, Bool.false_eq_true, if_false]
  rw [hllm, hs]
  simp [format_json_to_markdown]

theorem missing_rules_key_accepted_witness :
    mainRun envNoRulesKey
      = ⟨[(TABLE_OUTPUT_PATH, "No rules were generated by the LLM.")],
         true, none, false⟩ :=
  missing_rules_key_accepted envNoRulesKey mGood rfl rfl rfl (by decide)
    rfl rfl

/-- C1 counterexample.  With a model containing one relationship and an
inference response lacking the rules key, the run raises nothing and does
write an output file: the claim that a SchemaValidationError is raised and
no output files are written fails. -/
theorem missing_rules_key_no_failure_cex :
    (mainRun envNoRulesKey).raised = none
    ∧ (mainRun envNoRulesKey).writes
        = [(TABLE_OUTPUT_PATH, "No rules were generated by the LLM.")] :=
  ⟨rfl, rfl⟩

/-- C3, amended.  When the extracted graph has zero relationships, main
writes the fixed sentinel text to the tabular output location only (the
static path has no serialized-document output), never invokes the
inference client, and returns normally. -/
theorem empty_relationships_sentinel (env : StaticEnv) (m : RawModel)
    (hc : env.configureLlm = .ok ()) (he : env.exportModel = .ok ())
    (hm : env.modelDoc = .ok m) (hs : env.saveOutcome = .ok ())
    (hrel : keptRels m.relations = []) :
    mainRun env
      = ⟨[(TABLE_OUTPUT_PATH, noRelsSentinel)], false, none, false⟩ := by
  have hemp : (get_structured_model_data m).relationships.isEmpty = true := by
    rw [gsmd_eq]
    simp [List.isEmpty_iff, hrel]
  unfold mainRun mainTry
  rw [hc, he, hm]
  simp only [hemp, if_true]
  rw [hs]

theorem empty_relationships_sentinel_witness :
    mainRun envNoRels
      = ⟨[(TABLE_OUTPUT_PATH, noRelsSentinel)], false, none, false⟩ :=
  empty_relationships_sentinel envNoRels mNoRels rfl rfl rfl rfl rfl

/-- C3 counterexample.  On the empty-relationship model the driver performs
exactly one write, to the tabular location; in particular nothing is
written to the serialized-document location dist/firewall_rules.json, so
the sentinel is not written to both output locations. -/
theorem sentinel_single_location_cex :
    (mainRun envNoRels).writes = [(TABLE_OUTPUT_PATH, noRelsSentinel)]
    ∧ (mainRun envNoRels).writes.length = 1
    ∧ ¬ ∃ c, ("dist/firewall_rules.json", c) ∈ (mainRun envNoRels).writes := by
  refine ⟨rfl, rfl, ?_⟩
  rintro ⟨c, hc⟩
  rw [show (mainRun envNoRels).writes
      = [(TABLE_OUTPUT_PATH, noRelsSentinel)] from rfl] at hc
  simp [TABLE_OUTPUT_PATH] at hc

/-- dictInsert preserves a predicate on stored values. -/
lemma dictInsert_pred {α : Type} (P : α → Prop)
    (m : List (String × α)) (k : String) (v : α)
    (hm : ∀ p ∈ m, P p.2) (hv : P v) :
    ∀ p ∈ dictInsert m k v, P p.2 := by
  intro p hp
  unfold dictInsert at hp
  split_ifs at hp with hc
  · rcases List.mem_map.mp hp with ⟨q, hq, hqe⟩
    by_cases h2 : (q.1 == k) = true
    · rw [if_pos h2] at hqe
      cases hqe
      exact hv
    · rw [if_neg h2] at hqe
      cases hqe
      exact hm p hq
  · rcases List.mem_append.mp hp with hl | hl
    · exact hm p hl
    · have : p = (k, v) := by simpa using hl
      rw [this]
      exact hv

/-- dictInsert makes the inserted key present. -/
lemma dictInsert_key_mem {α : Type} (m : List (String × α)) (k : String)
    (v : α) : ∃ p ∈ dictInsert m k v, p.1 = k := by
  unfold dictInsert
  split_ifs with hc
  · rcases List.any_eq_true.mp hc with ⟨q, hq, hqk⟩
    exact ⟨(k, v), List.mem_map.mpr ⟨q, hq, by simp [hqk]⟩, rfl⟩
  · exact ⟨(k, v), List.mem_append.mpr (Or.inr (by simp)), rfl⟩

/-- dictInsert keeps every key that was already present. -/
lemma dictInsert_key_preserved {α : Type} {m : List (String × α)}
    {k0 : String} (k : String) (v : α)
    (h : ∃ p ∈ m, p.1 = k0) : ∃ p ∈ dictInsert m k v, p.1 = k0 := by
  rcases h with ⟨q, hq, hqk⟩
  unfold dictInsert
  split_ifs with hc
  · by_cases h2 : (q.1 == k) = true
    · have hk0 : k0 = k := by
        rw [← hqk]
        exact (beq_iff_eq.mp h2).symm ▸ rfl
      exact ⟨(k, v), List.mem_map.mpr ⟨q, hq, by simp [h2]⟩, hk0.symm⟩
    · exact ⟨q, List.mem_map.mpr ⟨q, hq, by simp [h2]⟩, hqk⟩
  · exact ⟨q, List.mem_append.mpr (Or.inl hq), hqk⟩

/-- The node loop only ever stores values built by mkLiveElement, so any
property of those values holds of every stored element. -/
lemma parseNodes_pred (P : LiveElement → Prop)
    (hP : ∀ node, P (mkLiveElement node)) :
    ∀ (nodes : List ViewNode) (acc : List (String × LiveElement)),
      (∀ p ∈ acc, P p.2) → ∀ p ∈ parseNodes nodes acc, P p.2
  | [], _, hacc => hacc
  | node :: rest, acc, hacc => by
      unfold parseNodes
      split_ifs with hc
      · exact parseNodes_pred P hP rest _
          (dictInsert_pred P acc _ _ hacc (hP node))
      · exact parseNodes_pred P hP rest acc hacc

/-- The node loop keeps every key that was already present. -/
lemma parseNodes_key_preserved {k0 : String} :
    ∀ (nodes : List ViewNode) (acc : List (String × LiveElement)),
      (∃ p ∈ acc, p.1 = k0) → ∃ p ∈ parseNodes nodes acc, p.1 = k0
  | [], _, h => h
  | _ :: rest, acc, h => by
      unfold parseNodes
      split_ifs with hc
      · exact parseNodes_key_preserved rest _
          (dictInsert_key_preserved _ _ h)
      · exact parseNodes_key_preserved rest acc h

/-- Every node with truthy id and represents reference ends up with its id
present in the element mapping. -/
lemma parseNodes_qualifying_key :
    ∀ (nodes : List ViewNode) (acc : List (String × LiveElement))
      (node : ViewNode), node ∈ nodes → pyTruthy node.id = true →
      pyTruthy node.represents = true →
      ∃ p ∈ parseNodes nodes acc, p.1 = node.id.getD ""
  | [], _, node, h, _, _ => absurd h (List.not_mem_nil node)
  | n :: rest, acc, node, h, h1, h2 => by
      rcases List.mem_cons.mp h with he | ht
      · subst he
        unfold parseNodes
        rw [if_pos (by rw [h1, h2]; rfl)]
        exact parseNodes_key_preserved rest _ (dictInsert_key_mem acc _ _)
      · unfold parseNodes
        split_ifs with hc
        · exact parseNodes_qualifying_key rest _ node ht h1 h2
        · exact parseNodes_qualifying_key rest acc node ht h1 h2

/-- C4.  For every live view payload, the parsed graph has an empty
relationship list; every stored element has kind unknown, empty description
and no technology value; and every node with a truthy id and a resolved
represents reference contributes an element under its id. -/
theorem live_parse_shape (v : ViewJson) :
    (parse_c4_view (some v)).1.relationships = []
    ∧ (∀ p ∈ (parse_c4_view (some v)).1.elements,
        p.2.kind = "unknown" ∧ p.2.description = ""
          ∧ p.2.technology = none)
    ∧ (∀ node ∈ v.nodes, pyTruthy node.id = true →
        pyTruthy node.represents = true →
        ∃ p ∈ (parse_c4_view (some v)).1.elements,
          p.1 = node.id.getD "") := by
  refine ⟨rfl, ?_, ?_⟩
  · intro p hp
    exact parseNodes_pred
      (fun e => e.kind = "unknown" ∧ e.description = ""
        ∧ e.technology = none)
      (fun _ => ⟨rfl, rfl, rfl⟩) v.nodes [] (by simp) p hp
  · intro node hn h1 h2
    exact parseNodes_qualifying_key v.nodes [] node hn h1 h2

theorem live_parse_shape_witness :
    (parse_c4_view (some view1)).1.relationships = []
    ∧ ((("n1", mkLiveElement node1) : String × LiveElement).2.kind
          = "unknown"
        ∧ (("n1", mkLiveElement node1) : String × LiveElement).2.description
          = ""
        ∧ (("n1", mkLiveElement node1) : String × LiveElement).2.technology
          = none)
    ∧ ∃ p ∈ (parse_c4_view (some view1)).1.elements,
        p.1 = node1.id.getD "" :=
  ⟨(live_parse_shape view1).1,
   (live_parse_shape view1).2.1 ("n1", mkLiveElement node1) (by decide),
   (live_parse_shape view1).2.2 node1 (by decide) (by decide) (by decide)⟩

/-- C8.  On a payload that fails to parse, parse_c4_view returns the empty
graph (no elements, no relationships) as an ordinary value, and its logging
calls end with the error record for the failed parse. -/
theorem parse_failure_empty_graph :
    parse_c4_view none
      = (⟨[], []⟩,
         [⟨"INFO", "Parsing view content..."⟩,
          ⟨"ERROR", "Failed to parse view content as JSON."⟩]) := rfl

/-- Decoding the encoding of one rule object yields it back. -/
lemma jsonToRule_ruleToJson (r : LiveRule) :
    jsonToRule (ruleToJson r) = some r := by
  cases r with
  | mk s t po pr pu =>
      cases s <;> cases t <;> cases po <;> cases pr <;> cases pu <;> rfl

/-- C7.  Round trip: writing a rule sequence as the serialized document
(the list wrapped under the fixed key firewall_rules) and re-reading it
yields the identical sequence, order and field values preserved. -/
theorem firewall_doc_round_trip (rules : List LiveRule) :
    readFirewallDoc (save_firewall_outputs_json rules) = some rules := by
  show decodeRules (rules.map ruleToJson) = some rules
  induction rules with
  | nil => rfl
  | cons a t ih =>
      show decodeRules (ruleToJson a :: t.map ruleToJson) = some (a :: t)
      unfold decodeRules
      rw [jsonToRule_ruleToJson a, ih]

end LikeC4
